import Mathlib

/-!
Verification development for the truyenfull.vision crawler/archiver
(src/app/crawler/parsers.py, src/app/crawler/crawler.py, src/app/scheduler.py,
src/app/database.py, src/app/api/routes.py).

The Python source is shallowly embedded: pure parsing helpers become Lean
functions on `String`/`List Char`; the scheduler and the storage-backed
routes become explicit state-passing functions.  External collaborators
(HTTP fetches, Supabase tables, object storage, gzip) are modelled at their
interface boundary: a fetch outcome is an `Option`/`Except` parameter, a
storage object is modelled by its decompressed text (gzip round-trips), and
write failures are injected through boolean parameters.
-/

namespace Crawl

/-! ### Character and string utilities

Python's `str.lower`, `str.isdigit`, `in` (substring), `len`, and the
regular-expression searches `trang-(\d+)`, `chuong-(\d+)` and
`(?:chương|chapter)\s*(\d+)` (the latter case-insensitive) are embedded as
structural scans over `List Char`. -/

/-- Lower-case a character: ASCII `A`-`Z` plus the two Vietnamese capitals
appearing in the keyword `chương` (models `re.IGNORECASE` / `str.lower` for
the alphabets this site uses). -/
def lowerChar (c : Char) : Char :=
  if c = 'Ư' then 'ư' else if c = 'Ơ' then 'ơ' else c.toLower

/-- Lower-case a character list. -/
def lowerList (l : List Char) : List Char := l.map lowerChar

/-- Python `needle in hay` substring test. -/
def containsSub (needle : List Char) : List Char → Bool
  | [] => needle.isEmpty
  | c :: t => needle.isPrefixOf (c :: t) || containsSub needle t

/-- Numeric value of a digit run (Python `int` on a digit string). -/
def digitsToNat (ds : List Char) : Nat :=
  ds.foldl (fun a c => a * 10 + (c.toNat - 48)) 0

/-- Python `str.isdigit`: non-empty and all digits. -/
def isDigitStr (s : String) : Bool :=
  !s.data.isEmpty && s.data.all Char.isDigit

/-- Try to match `key` followed by at least one digit at the head of `cs`;
on success return the value of the maximal digit run (regex `key(\d+)`
anchored at this position). -/
def matchKeyNum (key : List Char) (cs : List Char) : Option Nat :=
  if key.isPrefixOf cs then
    let ds := (cs.drop key.length).takeWhile Char.isDigit
    if ds.isEmpty then none else some (digitsToNat ds)
  else none

/-- Leftmost match of `key(\d+)` in a character list (Python `re.search`). -/
def scanKeyNum (key : List Char) : List Char → Option Nat
  | [] => none
  | c :: t =>
    match matchKeyNum key (c :: t) with
    | some v => some v
    | none => scanKeyNum key t

/-- `re.search(r'trang-(\d+)', s)` from `get_pagination_info`. -/
def trangNum (s : String) : Option Nat := scanKeyNum "trang-".data s.data

/-- `re.search(r'chuong-(\d+)', url)` from `extract_chapter_number`. -/
def chuongNum (s : String) : Option Nat := scanKeyNum "chuong-".data s.data

/-- Try to match `(?:chương|chapter)\s*(\d+)` anchored at the head of an
already lower-cased character list. -/
def matchLabelNum (cs : List Char) : Option Nat :=
  let tryKey : List Char → Option Nat := fun key =>
    if key.isPrefixOf cs then
      let ds := ((cs.drop key.length).dropWhile Char.isWhitespace).takeWhile Char.isDigit
      if ds.isEmpty then none else some (digitsToNat ds)
    else none
  match tryKey "chương".data with
  | some v => some v
  | none => tryKey "chapter".data

/-- Leftmost match of the chapter label pattern in a lower-cased list. -/
def scanLabelNum : List Char → Option Nat
  | [] => none
  | c :: t =>
    match matchLabelNum (c :: t) with
    | some v => some v
    | none => scanLabelNum t

/-- `re.search(r'(?:chương|chapter)\s*(\d+)', title, re.IGNORECASE)` from
`extract_chapter_number` (parsers.py line 180). -/
def titleChapterNum (title : String) : Option Nat :=
  scanLabelNum (lowerList title.data)

/-! ### parsers.py -/

/-- Base URL constant of parsers.py. -/
def BASE_URL : String := "https://truyenfull.vision"

/-- Model of `urllib.parse.urljoin` for the href shapes this site produces:
an absolute URL is kept, anything else is appended to the base.  No claim
inspects the joined value. -/
def urljoin (base href : String) : String :=
  if "http".data.isPrefixOf href.data then href else base ++ href

/-- `extract_chapter_number(title, url)` (parsers.py lines 177-189): the
localized chapter label in the title wins; otherwise the `chuong-N` pattern
in the URL; otherwise `None`. -/
def extract_chapter_number (title url : String) : Option Nat :=
  match titleChapterNum title with
  | some v => some v
  | none => chuongNum url

/-- One anchor from the `.list-chapter a` selection: its `href` attribute
and its stripped text. -/
structure Link where
  href : String
  text : String
deriving DecidableEq, Repr

/-- A chapter stub as produced by `parse_chapter_list`. -/
structure Chapter where
  chapter_number : Nat
  title : String
  source_url : String
deriving DecidableEq, Repr

/-- `parse_chapter_list(soup, start_index)` (parsers.py lines 128-174) over
the pre-selected anchor list.  Pagination-looking links are skipped (no
`chuong` in the lower-cased href, bare-digit text, text shorter than 2);
`if not chapter_num` in Python treats both `None` and `0` as missing, so an
extracted `0` also falls back to the sequential index. -/
def parse_chapter_list : List Link → Nat → List Chapter
  | [], _ => []
  | lnk :: rest, idx =>
    if lnk.href = "" || !containsSub "chuong".data (lowerList lnk.href.data) then
      parse_chapter_list rest idx
    else if isDigitStr lnk.text then
      parse_chapter_list rest idx
    else if lnk.text.length < 2 then
      parse_chapter_list rest idx
    else
      ⟨(match extract_chapter_number lnk.text lnk.href with
        | some m => if m = 0 then idx else m
        | none => idx),
        lnk.text, urljoin BASE_URL lnk.href⟩ :: parse_chapter_list rest (idx + 1)

/-- The three skip conditions of `parse_chapter_list`, as one predicate. -/
def linkPasses (lnk : Link) : Bool :=
  !(lnk.href = "" || !containsSub "chuong".data (lowerList lnk.href.data))
    && !isDigitStr lnk.text && !(lnk.text.length < 2)

/-! ### Pagination (`get_pagination_info`, parsers.py lines 246-312)

The BeautifulSoup selections are abstracted into a record of what the
selectors return on the page's pager element. -/

/-- Pre-selected pager pieces: the active item's text, the `Cuối`
(last-page) link's href when that link exists and has an href, the hrefs of
all `a[href*='trang-']` links, and the stripped texts of all `a`/`span`
items. -/
structure Pager where
  activeText : Option String
  lastHref : Option String
  trangHrefs : List String
  itemTexts : List String
  nextHref : Option String
  prevHref : Option String
deriving DecidableEq, Repr

structure PaginationInfo where
  current_page : Nat
  total_pages : Nat
  next_page_url : Option String
  prev_page_url : Option String
deriving DecidableEq, Repr

/-- Method 1: value of the `trang-N` pattern in the last-page link, with the
initial value 1 kept when the link or the pattern is absent. -/
def lastPageVal (p : Pager) : Nat :=
  match p.lastHref with
  | some h => match trangNum h with | some v => v | none => 1
  | none => 1

/-- Method 2: maximum `trang-N` value over the page links, starting from 1. -/
def maxTrang (hrefs : List String) : Nat :=
  hrefs.foldl
    (fun acc h =>
      match trangNum h with
      | some v => if v > acc then v else acc
      | none => acc)
    1

/-- Method 3: fold the bare-digit item texts, keeping the running maximum. -/
def maxDigits (start : Nat) (texts : List String) : Nat :=
  texts.foldl
    (fun acc t => if isDigitStr t then (if digitsToNat t.data > acc then digitsToNat t.data else acc) else acc)
    start

/-- `get_pagination_info(html)` over the abstracted pager (`none` models a
page with no pager element at all).  Method 2 runs only while the total is
still exactly 1, and likewise method 3. -/
def get_pagination_info (pager? : Option Pager) : PaginationInfo :=
  match pager? with
  | none => ⟨1, 1, none, none⟩
  | some p =>
    let current :=
      match p.activeText with
      | some t => if isDigitStr t then digitsToNat t.data else 1
      | none => 1
    let t1 := lastPageVal p
    let t2 := if t1 = 1 then maxTrang p.trangHrefs else t1
    let t3 := if t2 = 1 then maxDigits t2 p.itemTexts else t2
    ⟨current, t3, p.nextHref.map (urljoin BASE_URL), p.prevHref.map (urljoin BASE_URL)⟩

/-! ### scheduler.py: dedup and sort of enumerated chapters

`_crawl_and_save_story` (scheduler.py lines 129-137) deduplicates the
accumulated chapter stubs with a first-seen-wins dict keyed by
`chapter_number`, then sorts the surviving entries ascending by
`chapter_number`. -/

/-- The insertion-ordered dict build: an entry is kept iff its
`chapter_number` is not already among the keys seen so far. -/
def dedupAux : List Nat → List Chapter → List Chapter
  | _, [] => []
  | seen, c :: rest =>
    if c.chapter_number ∈ seen then dedupAux seen rest
    else c :: dedupAux (c.chapter_number :: seen) rest

/-- `seen_chapters` dict then `list(seen_chapters.values())`. -/
def dedupFirstSeen (l : List Chapter) : List Chapter := dedupAux [] l

/-- The `key=lambda x: x.get("chapter_number", 0)` sort order. -/
def chapLE (a b : Chapter) : Prop := a.chapter_number ≤ b.chapter_number

instance : DecidableRel chapLE := fun a b => Nat.decLe a.chapter_number b.chapter_number

instance : IsTotal Chapter chapLE := ⟨fun a b => Nat.le_total a.chapter_number b.chapter_number⟩

instance : IsTrans Chapter chapLE := ⟨fun _ _ _ => Nat.le_trans⟩

/-- Dedup by `chapter_number` (first-seen-wins) then a stable sort ascending
by `chapter_number`: scheduler.py lines 129-137. -/
def dedupSortChapters (l : List Chapter) : List Chapter :=
  List.insertionSort chapLE (dedupFirstSeen l)

/-- One row of the chapter batch records built in scheduler.py lines
199-209 and handed to `bulk_upsert_chapters`. -/
structure ChapterRecord where
  story_id : Nat
  chapter_number : Nat
  title : String
  source_url : String
  content : String
deriving DecidableEq, Repr

/-- Record building for persistence (`chapter_records.append(...)`,
scheduler.py lines 202-209; the batching by 50 slices this list without
reordering it). -/
def buildRecords (sid : Nat) (chs : List Chapter) : List ChapterRecord :=
  chs.map fun ch => ⟨sid, ch.chapter_number, ch.title, ch.source_url, ""⟩

/-! ### database.py: storage-backed chapter content

The `chapters` table rows of one story and the story's folder in the
`chapters` storage bucket, keyed by `chapter_number`.  A storage object is
modelled by the text it decompresses to (`gzip.decompress(gzip.compress(x))
= x`); transport failures of the storage download are injected through a
boolean. -/

/-- One row of the `chapters` table (the fields `read_chapter` and
`upload_chapter_content` touch). -/
structure RowData where
  id : String
  title : String
  source_url : String
  content : Option String
  is_archived : Bool
  storage_path : Option String
deriving DecidableEq, Repr

/-- The persistent state for one story: its chapter rows and the storage
objects, both keyed by chapter number. -/
structure Store where
  rows : Nat → Option RowData
  blob : Nat → Option String

/-- `Database._get_storage_path` with the story prefix fixed. -/
def storagePathFor (n : Nat) : String := "chap_" ++ toString n ++ ".gz"

/-- `Database.upload_chapter_content` (database.py lines 234-268): refuse
empty content; compress and upload the blob (`putOk n` injects a storage
transport failure, which aborts before any write); then mark the row
archived and clear its inline content (`rowOk n` injects a table-update
failure, after which the blob is written but the call still reports
failure).  Returns the success flag and the updated state. -/
def upload_chapter_content (putOk rowOk : Nat → Bool) (st : Store) (n : Nat)
    (content : String) : Bool × Store :=
  if content = "" then (false, st)
  else if !putOk n then (false, st)
  else
    let st1 : Store := { st with blob := fun m => if m = n then some content else st.blob m }
    if !rowOk n then (false, st1)
    else
      (true,
        { st1 with
          rows := fun m =>
            if m = n then
              (st.rows m).map fun r =>
                { r with is_archived := true, content := none, storage_path := some (storagePathFor n) }
            else st.rows m })

/-- `Database.download_chapter_content` (database.py lines 270-291): a
transport/decompression failure (`dlOk = false`) or a missing object yields
`none` (the Python code catches the exception and returns `None`);
otherwise the decompressed text, which may be empty. -/
def download_chapter_content (dlOk : Bool) (st : Store) (n : Nat) : Option String :=
  if dlOk then st.blob n else none

/-- `Database.is_chapter_archived` (database.py lines 309-312). -/
def is_chapter_archived (st : Store) (n : Nat) : Bool :=
  match st.rows n with
  | some r => r.is_archived
  | none => false

/-- Effect of a **successful** `Database.upsert_chapter` call, as issued by
the routes fallback (routes.py lines 390-396): upsert on
`(story_id, chapter_number)` writing title, source URL and inline content;
an existing row keeps its other fields, a missing row is inserted fresh
(`is_archived` defaults to false, the id is assigned by the database and is
not observed by any claim).  The call itself can raise — `upsert_chapter`
has no handler of its own — in which case none of this happens; that
failure is injected through the `upsertErr` parameter of `read_chapter`,
whose surrounding `try` catches the exception at routes.py line 398. -/
def upsert_inline (st : Store) (n : Nat) (title url body : String) : Store :=
  { st with
    rows := fun m =>
      if m = n then
        some
          (match st.rows m with
           | some r => { r with title := title, source_url := url, content := some body }
           | none => ⟨"", title, url, some body, false, none⟩)
      else st.rows m }

/-! ### routes.py: the reader-facing content cascade (`read_chapter`,
routes.py lines 335-417) -/

/-- The response body of `read_chapter` (the fields claims observe). -/
structure ReadResponse where
  id : String
  chapter_number : Nat
  title : String
  content : String
  is_archived : Bool
  prev_id : Option String
  next_id : Option String
deriving DecidableEq, Repr

/-- Result of one `read_chapter` call: the HTTP outcome (404 when the
chapter id resolves to no row), the possibly-updated store, and whether the
live tier issued a fetch of the source URL. -/
structure ReadOutcome where
  response : Except Nat ReadResponse
  store : Store
  liveFetched : Bool

/-- Content of an `ok` response. -/
def respContent : Except Nat ReadResponse → Option String
  | Except.ok r => some r.content
  | Except.error _ => none

/-- Whether the outcome is a renderable (non-error) response. -/
def respOk : Except Nat ReadResponse → Bool
  | Except.ok _ => true
  | Except.error _ => false

/-- Navigation: `db.get_chapter(story_id, chapter_num - 1)`.  In Python
`chapter_num - 1` is `-1` when the number is 0 and matches no row. -/
def prevId (st : Store) (n : Nat) : Option String :=
  if n = 0 then none else (st.rows (n - 1)).map (·.id)

/-- Navigation: `db.get_chapter(story_id, chapter_num + 1)`. -/
def nextId (st : Store) (n : Nat) : Option String :=
  (st.rows (n + 1)).map (·.id)

/-- Response assembly (routes.py lines 406-417); `is_archived` is reported
from the row as it was first fetched, navigation from the final store. -/
def mkResp (ch : RowData) (n : Nat) (content : String) (st : Store) : ReadResponse :=
  ⟨ch.id, n, ch.title, content, ch.is_archived, prevId st n, nextId st n⟩

/-- Steps 1-2 of the cascade (routes.py lines 350-360): the archive tier
when the row is flagged archived (a `None` download collapses to the empty
string, as every later Python check is a truthiness test), then the legacy
inline column. -/
def tier12 (st : Store) (n : Nat) (ch : RowData) (dlOk : Bool) : String :=
  let c1 := if ch.is_archived then (download_chapter_content dlOk st n).getD "" else ""
  if c1 = "" then ch.content.getD "" else c1

/-- `read_chapter` (routes.py lines 335-417).  `live` is the outcome of the
step-3 fetch-and-parse (`Except.error e` models a raised exception with
message `e`, caught at line 398; `Except.ok body` the parsed content);
`putOk`/`rowOk` are the storage-write failure injections of
`upload_chapter_content`; `upsertErr` injects a failure of the fallback
`db.upsert_chapter` call (`some e2` models it raising with message `e2`,
which the same handler at line 398 catches, serving the placeholder and
persisting nothing further; the mutations `upload_chapter_content` already
made are kept). -/
def read_chapter (st : Store) (n : Nat) (dlOk : Bool) (live : Except String String)
    (putOk rowOk : Nat → Bool) (upsertErr : Option String) : ReadOutcome :=
  match st.rows n with
  | none => ⟨Except.error 404, st, false⟩
  | some ch =>
    let c2 := tier12 st n ch dlOk
    if c2 = "" ∧ ch.source_url ≠ "" then
      match live with
      | Except.error e =>
        ⟨Except.ok (mkResp ch n ("Lỗi tải nội dung: " ++ e) st), st, true⟩
      | Except.ok body =>
        if body = "" then ⟨Except.ok (mkResp ch n body st), st, true⟩
        else
          let u := upload_chapter_content putOk rowOk st n body
          if u.1 then ⟨Except.ok (mkResp ch n body u.2), u.2, true⟩
          else
            match upsertErr with
            | none =>
              let st2 := upsert_inline u.2 n ch.title ch.source_url body
              ⟨Except.ok (mkResp ch n body st2), st2, true⟩
            | some e2 =>
              ⟨Except.ok (mkResp ch n ("Lỗi tải nội dung: " ++ e2) u.2), u.2, true⟩
    else ⟨Except.ok (mkResp ch n c2 st), st, false⟩

/-! ### scheduler.py: scheduler state and the manual-crawl entry points -/

/-- `self.stats` of `CrawlScheduler`. -/
structure SchedStats where
  stories_crawled : Nat
  chapters_saved : Nat
  errors : Nat
deriving DecidableEq, Repr

/-- `self.progress` of `CrawlScheduler`. -/
structure SchedProgress where
  current_chapter : Nat
  total_chapters : Nat
  percent : Nat
  status : String
deriving DecidableEq, Repr

/-- The mutable fields of `CrawlScheduler` (scheduler.py lines 10-33) that
the claims observe.  `crawl_logs` models the bounded deque of log messages;
the `asyncio.Task` handle and `last_run` timestamp are runtime artefacts
with no claim about them. -/
structure SchedState where
  is_running : Bool
  auto_enabled : Bool
  interval_minutes : Nat
  current_story : String
  current_story_title : String
  crawl_logs : List String
  stats : SchedStats
  progress : SchedProgress
deriving DecidableEq, Repr

/-- `self._log`: append to a deque with `maxlen=20`. -/
def pushLog (logs : List String) (m : String) : List String :=
  let l := logs ++ [m]
  if 20 < l.length then l.drop (l.length - 20) else l

/-- `CrawlScheduler.stop_auto_crawl` (scheduler.py lines 54-63): the single
code path that disables auto-discovery; it also clears `is_running` (so it
is equally the "stop requested" signal for a manual run) and resets the
current story. -/
def stop_auto_crawl (s : SchedState) : SchedState :=
  { s with
    auto_enabled := false
    is_running := false
    current_story := ""
    crawl_logs := pushLog s.crawl_logs "Crawler đã DỪNG" }

/-- The flags the per-chapter cancellation check reads. -/
structure SchedFlags where
  is_running : Bool
  auto_enabled : Bool
deriving DecidableEq, Repr

/-- Projection of the scheduler state onto the two cancellation flags. -/
def SchedState.schedFlags (s : SchedState) : SchedFlags :=
  ⟨s.is_running, s.auto_enabled⟩

/-- The loop-break condition `not self.is_running and not self.auto_enabled`
(scheduler.py lines 195 and 249). -/
def cancelSignal (f : SchedFlags) : Bool :=
  !f.is_running && !f.auto_enabled

/-- Result value of `CrawlScheduler.manual_crawl`. -/
inductive ManualResult where
  | busy (msg : String)
  | completed (stats : SchedStats)
  | failed (err : String)
deriving DecidableEq, Repr

/-- Outcome of the body of `manual_crawl` (the category walk, scheduler.py
lines 316-351): it finishes normally or raises, in either case leaving the
scheduler state it last wrote. -/
inductive BodyOutcome where
  | normal (s : SchedState)
  | raised (err : String) (s : SchedState)

/-- The mutations `manual_crawl` performs after accepting a run
(scheduler.py lines 312-314): set the running flag, reset the stats, log. -/
def manual_crawl_entry (s : SchedState) : SchedState :=
  { s with
    is_running := true
    stats := ⟨0, 0, 0⟩
    crawl_logs := pushLog s.crawl_logs "Bắt đầu crawl" }

/-- The `finally` clause of `manual_crawl` (scheduler.py lines 356-358). -/
def manual_finally (s : SchedState) : SchedState :=
  { s with is_running := false, current_story := "" }

/-- `CrawlScheduler.manual_crawl` (scheduler.py lines 307-358): reject with
a busy status while a run is in flight, before any mutation; otherwise run
the body, catch an exception into a failed status, and in both cases apply
the `finally` clause. -/
def manual_crawl (s : SchedState) (body : SchedState → BodyOutcome) :
    ManualResult × SchedState :=
  if s.is_running then (ManualResult.busy "Crawler đang chạy", s)
  else
    match body (manual_crawl_entry s) with
    | BodyOutcome.normal s2 => (ManualResult.completed s2.stats, manual_finally s2)
    | BodyOutcome.raised e s2 =>
      (ManualResult.failed e,
        manual_finally { s2 with crawl_logs := pushLog s2.crawl_logs ("Lỗi: " ++ e) })

/-! ### scheduler.py: the content backfill loop

Phase 2 of `_crawl_and_save_story` (scheduler.py lines 247-291) walks the
deduplicated chapters in order.  At the top of every iteration — and only
there — it reads the cancellation flags and breaks; otherwise it skips an
already-archived chapter, or fetches and parses the chapter body and, when
non-empty, archives it through `upload_chapter_content` in one call.
Progress counters, logging and the politeness sleep have no claim about
them and are omitted from the state. -/

/-- One loop iteration's effect on the store: skip when archived, otherwise
fetch (`fetch n = none` models a raised fetch/parse exception, caught at
line 284) and archive non-empty content. -/
def processChapter (fetch : Nat → Option String) (putOk rowOk : Nat → Bool)
    (st : Store) (ch : Chapter) : Store :=
  if is_chapter_archived st ch.chapter_number then st
  else
    match fetch ch.chapter_number with
    | none => st
    | some content =>
      if content = "" then st
      else (upload_chapter_content putOk rowOk st ch.chapter_number content).2

/-- The backfill loop with its per-iteration cancellation check; `flags i`
is the scheduler flag state the `i`-th check observes. -/
def backfillLoop (flags : Nat → SchedFlags) (fetch : Nat → Option String)
    (putOk rowOk : Nat → Bool) : Nat → List Chapter → Store → Store
  | _, [], st => st
  | idx, ch :: rest, st =>
    if cancelSignal (flags idx) then st
    else backfillLoop flags fetch putOk rowOk (idx + 1) rest
      (processChapter fetch putOk rowOk st ch)

/-! ### Concrete fixtures used by scenario conjuncts, witnesses and
counterexamples -/

/-- Chapter stubs as accumulated from two listing pages: numbers 1, 2, 3 on
page one and 3, 4 on page two (the spec's enumeration scenario). -/
def pagesC1 : List Chapter :=
  [⟨1, "Chương 1", "u1"⟩, ⟨2, "Chương 2", "u2"⟩, ⟨3, "Chương 3", "u3"⟩]
    ++ [⟨3, "Chương 3 bis", "u3b"⟩, ⟨4, "Chương 4", "u4"⟩]

/-- Expected enumeration result: four entries, ascending, the page-one
entry kept for number 3. -/
def expectedC1 : List Chapter :=
  [⟨1, "Chương 1", "u1"⟩, ⟨2, "Chương 2", "u2"⟩, ⟨3, "Chương 3", "u3"⟩, ⟨4, "Chương 4", "u4"⟩]

/-- An archived chapter row with no inline body. -/
def rowArch : RowData := ⟨"id1", "Chương 1", "http://src/ch1", none, true, some "p1"⟩

/-- Store whose chapter 1 is archived with non-empty blob text. -/
def storeArchOk : Store :=
  ⟨fun m => if m = 1 then some rowArch else none,
   fun m => if m = 1 then some "Nội dung chương một" else none⟩

/-- Store whose chapter 1 is archived and whose blob decompresses to the
empty string (a successful download of an empty archive object). -/
def storeArchEmpty : Store :=
  ⟨fun m => if m = 1 then some rowArch else none,
   fun m => if m = 1 then some "" else none⟩

/-- An archived row whose legacy inline column still holds text. -/
def rowArchInline : RowData :=
  ⟨"id2", "Chương 2", "http://src/ch2", some "văn bản cũ", true, some "p2"⟩

/-- Store whose chapter 1 row is flagged archived but whose storage object
is missing, with a non-empty legacy inline body. -/
def storeMissInline : Store :=
  ⟨fun m => if m = 1 then some rowArchInline else none, fun _ => none⟩

/-- Store whose chapter 1 row is flagged archived with a missing storage
object and no inline body. -/
def storeMissBare : Store :=
  ⟨fun m => if m = 1 then some rowArch else none, fun _ => none⟩

/-- A plain row: not archived, no inline body, a live source URL. -/
def rowPlain : RowData := ⟨"id3", "Chương 3", "http://src/ch3", none, false, none⟩

/-- Store holding only the plain chapter 3 row. -/
def storePlain : Store :=
  ⟨fun m => if m = 3 then some rowPlain else none, fun _ => none⟩

/-- A scheduler state with a manual run in flight. -/
def sBusy : SchedState :=
  ⟨true, false, 15, "truyen-a", "Truyện A", ["log"], ⟨2, 30, 1⟩, ⟨5, 10, 50, "syncing_content"⟩⟩

/-- An idle scheduler state. -/
def sIdle : SchedState :=
  ⟨false, false, 15, "", "", [], ⟨0, 0, 0⟩, ⟨0, 0, 0, "idle"⟩⟩

/-- A body that completes normally. -/
def bodyNormal : SchedState → BodyOutcome := fun s => BodyOutcome.normal s

/-- A body that raises after having set a current story. -/
def bodyRaise : SchedState → BodyOutcome :=
  fun s => BodyOutcome.raised "boom" { s with current_story := "truyen-b" }

/-- Flag trace for the backfill witness: running at the check before
chapter one, stopped (via `stop_auto_crawl`) at every later check. -/
def flagsW : Nat → SchedFlags
  | 0 => ⟨true, false⟩
  | _ + 1 => (stop_auto_crawl sBusy).schedFlags

/-- Fetch oracle for the backfill witness. -/
def fetchW : Nat → Option String := fun _ => some "nội dung"

/-- Chapters for the backfill witness. -/
def chsW : List Chapter := [⟨1, "Chương 1", "u1"⟩, ⟨2, "Chương 2", "u2"⟩]

/-- Empty store for the backfill witness. -/
def stW : Store := ⟨fun _ => none, fun _ => none⟩

/-- Pager exposing only a last-page link to page 7. -/
def pagerLast7 : Pager := ⟨none, some "/truyen/trang-7/", [], [], none, none⟩

/-- Pager exposing only the bare-digit controls 1, 2, 3. -/
def pagerDigits123 : Pager := ⟨none, none, [], ["1", "2", "3"], none, none⟩

/-- Pager whose last-page link carries `trang-0` while a bare-digit control
shows 3. -/
def pagerZero : Pager := ⟨none, some "/truyen/trang-0/", [], ["3"], none, none⟩

/-! ## Lemmas about the first-seen dedup -/

theorem mem_dedupAux {seen : List Nat} {l : List Chapter} {c : Chapter}
    (h : c ∈ dedupAux seen l) : c ∈ l ∧ c.chapter_number ∉ seen := by
  induction l generalizing seen with
  | nil => simp [dedupAux] at h
  | cons a rest ih =>
    by_cases ha : a.chapter_number ∈ seen
    · rw [dedupAux, if_pos ha] at h
      obtain ⟨h1, h2⟩ := ih h
      exact ⟨List.mem_cons_of_mem _ h1, h2⟩
    · rw [dedupAux, if_neg ha] at h
      rcases List.mem_cons.1 h with rfl | h
      · exact ⟨List.mem_cons_self _ _, ha⟩
      · obtain ⟨h1, h2⟩ := ih h
        refine ⟨List.mem_cons_of_mem _ h1, fun hc => h2 (List.mem_cons_of_mem _ hc)⟩

theorem nodup_map_dedupAux (seen : List Nat) (l : List Chapter) :
    ((dedupAux seen l).map Chapter.chapter_number).Nodup := by
  induction l generalizing seen with
  | nil => simp [dedupAux]
  | cons a rest ih =>
    by_cases ha : a.chapter_number ∈ seen
    · rw [dedupAux, if_pos ha]; exact ih seen
    · rw [dedupAux, if_neg ha]
      simp only [List.map_cons, List.nodup_cons, List.mem_map]
      refine ⟨?_, ih _⟩
      rintro ⟨c, hc, hnum⟩
      exact (mem_dedupAux hc).2 (hnum ▸ List.mem_cons_self _ _)

theorem find_dedupAux {seen : List Nat} {l : List Chapter} {c : Chapter}
    (h : c ∈ dedupAux seen l) :
    l.find? (fun d => d.chapter_number == c.chapter_number) = some c := by
  induction l generalizing seen with
  | nil => simp [dedupAux] at h
  | cons a rest ih =>
    by_cases ha : a.chapter_number ∈ seen
    · rw [dedupAux, if_pos ha] at h
      have hne : (a.chapter_number == c.chapter_number) = false := by
        simp only [beq_eq_false_iff_ne, ne_eq]
        intro he
        exact (mem_dedupAux h).2 (he ▸ ha)
      rw [List.find?_cons, hne]
      exact ih h
    · rw [dedupAux, if_neg ha] at h
      rcases List.mem_cons.1 h with rfl | h
      · rw [List.find?_cons, beq_self_eq_true]
      · have hne : (a.chapter_number == c.chapter_number) = false := by
          simp only [beq_eq_false_iff_ne, ne_eq]
          intro he
          exact (mem_dedupAux h).2 (he ▸ List.mem_cons_self _ _)
        rw [List.find?_cons, hne]
        exact ih h

theorem dedupSort_perm (l : List Chapter) :
    (dedupSortChapters l).Perm (dedupFirstSeen l) :=
  List.perm_insertionSort chapLE (dedupFirstSeen l)

theorem mem_dedupSort {l : List Chapter} {c : Chapter}
    (h : c ∈ dedupSortChapters l) : c ∈ l :=
  (mem_dedupAux ((dedupSort_perm l).subset h)).1

theorem dedupSort_pairwise_lt (l : List Chapter) :
    ((dedupSortChapters l).map Chapter.chapter_number).Pairwise (· < ·) := by
  have hs : List.Pairwise chapLE (dedupSortChapters l) :=
    List.sorted_insertionSort chapLE (dedupFirstSeen l)
  have hnd : ((dedupSortChapters l).map Chapter.chapter_number).Nodup :=
    (((dedupSort_perm l).map Chapter.chapter_number).nodup_iff).2 (nodup_map_dedupAux [] l)
  have hne : (dedupSortChapters l).Pairwise
      (fun a b => a.chapter_number ≠ b.chapter_number) :=
    List.pairwise_map.1 hnd
  have hlt : (dedupSortChapters l).Pairwise
      (fun a b => a.chapter_number < b.chapter_number) :=
    (hs.and hne).imp fun hab => lt_of_le_of_ne hab.1 hab.2
  exact List.pairwise_map.2 hlt

/-! ## Claim theorems -/

/-- Claim C1: the chapter list the scheduler hands to persistence — the
accumulated stubs after `_crawl_and_save_story`'s first-seen dedup by
`chapter_number` and ascending sort (scheduler.py lines 129-137) — has no
two entries sharing `chapter_number` and is strictly ascending; every kept
entry is the first one of the accumulated input carrying its number; and
pages yielding chapter numbers 1, 2, 3 and then 3, 4 produce exactly the
four entries 1, 2, 3, 4 in that order, keeping the page-one entry for 3. -/
theorem dedupSort_unique_sorted_firstseen :
    (∀ l : List Chapter,
      ((dedupSortChapters l).map Chapter.chapter_number).Pairwise (· < ·)
      ∧ ∀ c ∈ dedupSortChapters l,
          l.find? (fun d => d.chapter_number == c.chapter_number) = some c)
    ∧ dedupSortChapters pagesC1 = expectedC1 := by
  refine ⟨fun l => ⟨dedupSort_pairwise_lt l, fun c hc => find_dedupAux ((dedupSort_perm l).subset hc)⟩, ?_⟩
  decide

/-- Witness for C1: the first-seen property applied at the scenario input
and the kept number-3 entry. -/
theorem dedupSort_unique_sorted_firstseen_witness :
    pagesC1.find? (fun d => d.chapter_number == 3) = some ⟨3, "Chương 3", "u3"⟩ :=
  (dedupSort_unique_sorted_firstseen.1 pagesC1).2 ⟨3, "Chương 3", "u3"⟩ (by decide)

/-! ## Lemmas about `upload_chapter_content` -/

theorem upload_fst_true (putOk rowOk : Nat → Bool) (st : Store) (n : Nat)
    (content : String) (hc : content ≠ "") (hp : putOk n = true) (hr : rowOk n = true) :
    (upload_chapter_content putOk rowOk st n content).1 = true := by
  simp [upload_chapter_content, hc, hp, hr]

theorem upload_fst_false (putOk rowOk : Nat → Bool) (st : Store) (n : Nat)
    (content : String) (hfail : putOk n = false ∨ rowOk n = false) :
    (upload_chapter_content putOk rowOk st n content).1 = false := by
  rcases hfail with hp | hr
  · simp [upload_chapter_content, hp]
  · by_cases hc : content = ""
    · simp [upload_chapter_content, hc]
    · by_cases hp : putOk n = true <;> simp [upload_chapter_content, hc, hp, hr]

theorem upload_success_store (putOk rowOk : Nat → Bool) (st : Store) (n : Nat)
    (content : String) (hc : content ≠ "") (hp : putOk n = true) (hr : rowOk n = true) :
    (upload_chapter_content putOk rowOk st n content).2.blob n = some content
    ∧ (upload_chapter_content putOk rowOk st n content).2.rows n
        = (st.rows n).map fun r =>
            { r with is_archived := true, content := none,
                     storage_path := some (storagePathFor n) } := by
  simp [upload_chapter_content, hc, hp, hr]

theorem upload_fail_rows (putOk rowOk : Nat → Bool) (st : Store) (n : Nat)
    (content : String) (hfail : putOk n = false ∨ rowOk n = false) :
    (upload_chapter_content putOk rowOk st n content).2.rows n = st.rows n := by
  rcases hfail with hp | hr
  · simp [upload_chapter_content, hp]
  · by_cases hc : content = ""
    · simp [upload_chapter_content, hc]
    · by_cases hp : putOk n = true <;> simp [upload_chapter_content, hc, hp, hr]

/-- Claim C2 (amended): when a chapter's row is flagged `is_archived` and
its archived blob downloads and decompresses successfully **to non-empty
content**, `read_chapter` returns that archive-tier content and performs no
live fetch; when the download or decompression fails (returns `None`), the
archive tier is a miss: a non-empty inline body is served with no live
fetch, and failing that the live tier is consulted, still producing a
renderable response rather than raising (routes.py lines 346-381,
database.py lines 270-291). -/
theorem archive_tier_no_live_fetch (st : Store) (n : Nat) (ch : RowData) (dlOk : Bool)
    (live : Except String String) (putOk rowOk : Nat → Bool) (upsertErr : Option String)
    (hrow : st.rows n = some ch) (harch : ch.is_archived = true) :
    (∀ c, download_chapter_content dlOk st n = some c → c ≠ "" →
      (read_chapter st n dlOk live putOk rowOk upsertErr).liveFetched = false
      ∧ respContent (read_chapter st n dlOk live putOk rowOk upsertErr).response = some c)
    ∧ (download_chapter_content dlOk st n = none →
      (∀ b, ch.content = some b → b ≠ "" →
        (read_chapter st n dlOk live putOk rowOk upsertErr).liveFetched = false
        ∧ respContent (read_chapter st n dlOk live putOk rowOk upsertErr).response = some b)
      ∧ (ch.content.getD "" = "" → ch.source_url ≠ "" →
        (read_chapter st n dlOk live putOk rowOk upsertErr).liveFetched = true
        ∧ respOk (read_chapter st n dlOk live putOk rowOk upsertErr).response = true)) := by
  constructor
  · intro c hdl hc
    have ht : tier12 st n ch dlOk = c := by simp [tier12, harch, hdl, hc]
    simp [read_chapter, hrow, ht, hc, mkResp, respContent]
  · intro hdl
    constructor
    · intro b hb hbne
      have ht : tier12 st n ch dlOk = b := by simp [tier12, harch, hdl, hb]
      simp [read_chapter, hrow, ht, hbne, mkResp, respContent]
    · intro hins hsrc
      have ht : tier12 st n ch dlOk = "" := by simp [tier12, harch, hdl, hins]
      have hcond : tier12 st n ch dlOk = "" ∧ ch.source_url ≠ "" := ⟨ht, hsrc⟩
      cases live with
      | error e => simp [read_chapter, hrow, hcond, respOk]
      | ok body =>
        by_cases hb : body = ""
        · simp [read_chapter, hrow, hcond, hb, respOk]
        · by_cases hu : (upload_chapter_content putOk rowOk st n body).1 = true
          · simp [read_chapter, hrow, hcond, hb, hu, respOk]
          · cases upsertErr <;> simp [read_chapter, hrow, hcond, hb, hu, respOk]

/-- Witness for C2 (amended): the three branches at concrete stores — an
archive hit serves the blob with no live fetch; an archive miss with a
legacy inline body serves it with no live fetch; an archive miss with no
inline body reaches the live tier and still renders. -/
theorem archive_tier_no_live_fetch_witness :
    ((read_chapter storeArchOk 1 true (Except.ok "x") (fun _ => true) (fun _ => true) none).liveFetched = false
      ∧ respContent (read_chapter storeArchOk 1 true (Except.ok "x") (fun _ => true) (fun _ => true) none).response
          = some "Nội dung chương một")
    ∧ ((read_chapter storeMissInline 1 false (Except.ok "x") (fun _ => true) (fun _ => true) none).liveFetched = false
      ∧ respContent (read_chapter storeMissInline 1 false (Except.ok "x") (fun _ => true) (fun _ => true) none).response
          = some "văn bản cũ")
    ∧ ((read_chapter storeMissBare 1 false (Except.error "timeout") (fun _ => true) (fun _ => true) none).liveFetched = true
      ∧ respOk (read_chapter storeMissBare 1 false (Except.error "timeout") (fun _ => true) (fun _ => true) none).response = true) :=
  ⟨(archive_tier_no_live_fetch storeArchOk 1 rowArch true (Except.ok "x")
      (fun _ => true) (fun _ => true) none rfl rfl).1 "Nội dung chương một" rfl (by decide),
   ((archive_tier_no_live_fetch storeMissInline 1 rowArchInline false (Except.ok "x")
      (fun _ => true) (fun _ => true) none rfl rfl).2 rfl).1 "văn bản cũ" rfl (by decide),
   ((archive_tier_no_live_fetch storeMissBare 1 rowArch false (Except.error "timeout")
      (fun _ => true) (fun _ => true) none rfl rfl).2 rfl).2 rfl (by decide)⟩

/-- Counterexample to C2 as stated: chapter 1 of `storeArchEmpty` has the
`is_archived` flag set and its archived blob downloads and decompresses
successfully (to the empty string), yet `read_chapter` performs a live
fetch — the empty decompressed content is treated as a miss by the
truthiness test at routes.py line 353. -/
theorem archive_tier_counterexample :
    (storeArchEmpty.rows 1).map RowData.is_archived = some true
    ∧ download_chapter_content true storeArchEmpty 1 = some ""
    ∧ (read_chapter storeArchEmpty 1 true (Except.ok "nội dung mới")
        (fun _ => true) (fun _ => true) none).liveFetched = true := by
  decide

/-- Claim C5: a content read that reaches the live tier (archive and inline
tiers yielded nothing, a source URL exists) and whose fetch or parse raises
an error returns the placeholder error string as the content value of a
renderable response instead of propagating the exception (routes.py lines
362-401). -/
theorem live_error_placeholder (st : Store) (n : Nat) (ch : RowData) (dlOk : Bool)
    (putOk rowOk : Nat → Bool) (upsertErr : Option String) (e : String)
    (hrow : st.rows n = some ch) (ht : tier12 st n ch dlOk = "")
    (hsrc : ch.source_url ≠ "") :
    respContent (read_chapter st n dlOk (Except.error e) putOk rowOk upsertErr).response
      = some ("Lỗi tải nội dung: " ++ e)
    ∧ respOk (read_chapter st n dlOk (Except.error e) putOk rowOk upsertErr).response = true := by
  have hcond : tier12 st n ch dlOk = "" ∧ ch.source_url ≠ "" := ⟨ht, hsrc⟩
  simp [read_chapter, hrow, hcond, mkResp, respContent, respOk]

/-- Witness for C5: a failing live fetch for the plain chapter 3 yields the
placeholder content. -/
theorem live_error_placeholder_witness :
    respContent (read_chapter storePlain 3 true (Except.error "timeout")
        (fun _ => true) (fun _ => true) none).response
      = some ("Lỗi tải nội dung: " ++ "timeout")
    ∧ respOk (read_chapter storePlain 3 true (Except.error "timeout")
        (fun _ => true) (fun _ => true) none).response = true :=
  live_error_placeholder storePlain 3 rowPlain true (fun _ => true) (fun _ => true)
    none "timeout" rfl rfl (by decide)

/-- Claim C6 (amended): when the live tier fetches and parses non-empty
chapter content, a successful archive write stores the blob, marks the row
archived and clears its inline content column; when the archive write
fails, the content is instead written to the row's inline content column
**provided the fallback upsert itself succeeds** — if the fallback
`db.upsert_chapter` call raises as well, the handler at routes.py line 398
catches it, the chapter row is left unchanged and the reader is served the
placeholder error string instead of the fetched body, which is then not
persisted (routes.py lines 362-401, database.py lines 234-268). -/
theorem live_success_archive_write (st : Store) (n : Nat) (ch : RowData) (dlOk : Bool)
    (putOk rowOk : Nat → Bool) (upsertErr : Option String) (body : String)
    (hrow : st.rows n = some ch) (ht : tier12 st n ch dlOk = "")
    (hsrc : ch.source_url ≠ "") (hb : body ≠ "") :
    (putOk n = true → rowOk n = true →
      (read_chapter st n dlOk (Except.ok body) putOk rowOk upsertErr).store.blob n = some body
      ∧ (read_chapter st n dlOk (Except.ok body) putOk rowOk upsertErr).store.rows n
          = some { ch with is_archived := true, content := none,
                           storage_path := some (storagePathFor n) }
      ∧ respContent (read_chapter st n dlOk (Except.ok body) putOk rowOk upsertErr).response
          = some body)
    ∧ ((putOk n = false ∨ rowOk n = false) → upsertErr = none →
      ∃ r2, (read_chapter st n dlOk (Except.ok body) putOk rowOk upsertErr).store.rows n = some r2
      ∧ r2.content = some body
      ∧ respContent (read_chapter st n dlOk (Except.ok body) putOk rowOk upsertErr).response
          = some body)
    ∧ (∀ e2, (putOk n = false ∨ rowOk n = false) → upsertErr = some e2 →
      (read_chapter st n dlOk (Except.ok body) putOk rowOk upsertErr).store.rows n = st.rows n
      ∧ respContent (read_chapter st n dlOk (Except.ok body) putOk rowOk upsertErr).response
          = some ("Lỗi tải nội dung: " ++ e2)) := by
  have hcond : tier12 st n ch dlOk = "" ∧ ch.source_url ≠ "" := ⟨ht, hsrc⟩
  refine ⟨?_, ?_, ?_⟩
  · intro hp hr
    have hu : (upload_chapter_content putOk rowOk st n body).1 = true :=
      upload_fst_true putOk rowOk st n body hb hp hr
    have hst := upload_success_store putOk rowOk st n body hb hp hr
    simp [read_chapter, hrow, hcond, hb, hu, mkResp, respContent, hst.1, hst.2]
  · intro hfail hup
    subst hup
    have hu : (upload_chapter_content putOk rowOk st n body).1 = false :=
      upload_fst_false putOk rowOk st n body hfail
    have hrows : (upload_chapter_content putOk rowOk st n body).2.rows n = st.rows n :=
      upload_fail_rows putOk rowOk st n body hfail
    refine ⟨{ ch with title := ch.title, source_url := ch.source_url, content := some body }, ?_⟩
    simp [read_chapter, hrow, hcond, hb, hu, mkResp, respContent, upsert_inline, hrows]
  · intro e2 hfail hup
    subst hup
    have hu : (upload_chapter_content putOk rowOk st n body).1 = false :=
      upload_fst_false putOk rowOk st n body hfail
    have hrows : (upload_chapter_content putOk rowOk st n body).2.rows n = st.rows n :=
      upload_fail_rows putOk rowOk st n body hfail
    simp [read_chapter, hrow, hcond, hb, hu, mkResp, respContent, hrows]

/-- Witness for C6 (amended): the three write paths for the plain chapter 3
— successful archive write clears the inline column and marks the row
archived; a storage failure with a working fallback lands the content in
the inline column; a storage failure with a raising fallback leaves the row
unchanged and serves the placeholder. -/
theorem live_success_archive_write_witness :
    ((read_chapter storePlain 3 true (Except.ok "văn bản") (fun _ => true) (fun _ => true) none).store.blob 3
        = some "văn bản"
      ∧ (read_chapter storePlain 3 true (Except.ok "văn bản") (fun _ => true) (fun _ => true) none).store.rows 3
          = some { rowPlain with is_archived := true, content := none,
                                 storage_path := some (storagePathFor 3) })
    ∧ (∃ r2, (read_chapter storePlain 3 true (Except.ok "văn bản") (fun _ => false) (fun _ => true) none).store.rows 3
        = some r2 ∧ r2.content = some "văn bản")
    ∧ respContent (read_chapter storePlain 3 true (Except.ok "văn bản") (fun _ => false) (fun _ => true)
        (some "lỗi ghi db")).response = some ("Lỗi tải nội dung: " ++ "lỗi ghi db") :=
  ⟨⟨((live_success_archive_write storePlain 3 rowPlain true (fun _ => true) (fun _ => true) none
        "văn bản" rfl rfl (by decide) (by decide)).1 rfl rfl).1,
    ((live_success_archive_write storePlain 3 rowPlain true (fun _ => true) (fun _ => true) none
        "văn bản" rfl rfl (by decide) (by decide)).1 rfl rfl).2.1⟩,
   (match ((live_success_archive_write storePlain 3 rowPlain true (fun _ => false) (fun _ => true) none
        "văn bản" rfl rfl (by decide) (by decide)).2.1 (Or.inl rfl) rfl) with
    | ⟨r2, h1, h2, _⟩ => ⟨r2, h1, h2⟩),
   ((live_success_archive_write storePlain 3 rowPlain true (fun _ => false) (fun _ => true)
        (some "lỗi ghi db") "văn bản" rfl rfl (by decide) (by decide)).2.2 "lỗi ghi db"
        (Or.inl rfl) rfl).2⟩

/-- Counterexample to C6 as stated: chapter 3 is fetched live with the
non-empty body "văn bản", the storage upload fails, and the fallback
`db.upsert_chapter` raises as well; the handler at routes.py line 398
serves the placeholder error string, the chapter row keeps its empty
inline column and no blob is stored — the fetched content is lost,
contradicting "the fetched content is never lost". -/
theorem live_success_archive_write_counterexample :
    (read_chapter storePlain 3 true (Except.ok "văn bản") (fun _ => false) (fun _ => true)
        (some "lỗi ghi db")).store.rows 3 = storePlain.rows 3
    ∧ (read_chapter storePlain 3 true (Except.ok "văn bản") (fun _ => false) (fun _ => true)
        (some "lỗi ghi db")).store.blob 3 = none
    ∧ respContent (read_chapter storePlain 3 true (Except.ok "văn bản") (fun _ => false) (fun _ => true)
        (some "lỗi ghi db")).response = some "Lỗi tải nội dung: lỗi ghi db"
    ∧ respContent (read_chapter storePlain 3 true (Except.ok "văn bản") (fun _ => false) (fun _ => true)
        (some "lỗi ghi db")).response ≠ some "văn bản" := by
  decide

/-! ## Lemmas about the backfill loop -/

theorem upload_other_key (putOk rowOk : Nat → Bool) (st : Store) (n : Nat)
    (content : String) (m : Nat) (h : m ≠ n) :
    (upload_chapter_content putOk rowOk st n content).2.rows m = st.rows m
    ∧ (upload_chapter_content putOk rowOk st n content).2.blob m = st.blob m := by
  unfold upload_chapter_content
  split
  · exact ⟨rfl, rfl⟩
  · split
    · exact ⟨rfl, rfl⟩
    · split
      · simp [h]
      · simp [h]

theorem upload_blob_self (putOk rowOk : Nat → Bool) (st : Store) (n : Nat)
    (content : String) (hc : content ≠ "") (hp : putOk n = true) :
    (upload_chapter_content putOk rowOk st n content).2.blob n = some content := by
  unfold upload_chapter_content
  cases hr : rowOk n <;> simp [hc, hp, hr]

theorem upload_putfail_id (putOk rowOk : Nat → Bool) (st : Store) (n : Nat)
    (content : String) (hp : putOk n = false) :
    (upload_chapter_content putOk rowOk st n content).2 = st := by
  unfold upload_chapter_content
  split
  · rfl
  · simp [hp]

theorem processChapter_other (fetch : Nat → Option String) (putOk rowOk : Nat → Bool)
    (st : Store) (ch : Chapter) (m : Nat) (h : m ≠ ch.chapter_number) :
    (processChapter fetch putOk rowOk st ch).rows m = st.rows m
    ∧ (processChapter fetch putOk rowOk st ch).blob m = st.blob m := by
  unfold processChapter
  split
  · exact ⟨rfl, rfl⟩
  · cases hf : fetch ch.chapter_number with
    | none => simp [hf]
    | some content =>
      simp only [hf]
      by_cases hce : content = ""
      · simp [hce]
      · rw [if_neg hce]
        exact upload_other_key putOk rowOk st ch.chapter_number content m h

theorem processChapter_archived_mono (fetch : Nat → Option String)
    (putOk rowOk : Nat → Bool) (st : Store) (ch : Chapter) (n : Nat)
    (h : is_chapter_archived st n = true) :
    is_chapter_archived (processChapter fetch putOk rowOk st ch) n = true := by
  by_cases hm : n = ch.chapter_number
  · subst hm
    unfold processChapter
    split
    · exact h
    · next hner => exact absurd h hner
  · have hr := (processChapter_other fetch putOk rowOk st ch n hm).1
    simp only [is_chapter_archived] at h ⊢
    rw [hr]
    exact h

theorem processChapter_blob_cases (fetch : Nat → Option String)
    (putOk rowOk : Nat → Bool) (st : Store) (ch : Chapter) (m : Nat) :
    (processChapter fetch putOk rowOk st ch).blob m = st.blob m
    ∨ ∃ c, fetch m = some c ∧ c ≠ ""
        ∧ (processChapter fetch putOk rowOk st ch).blob m = some c := by
  by_cases hm : m = ch.chapter_number
  · subst hm
    unfold processChapter
    split
    · exact Or.inl rfl
    · cases hf : fetch ch.chapter_number with
      | none => exact Or.inl rfl
      | some content =>
        dsimp only
        by_cases hce : content = ""
        · left
          rw [if_pos hce]
        · cases hp : putOk ch.chapter_number with
          | false =>
            left
            rw [if_neg hce, upload_putfail_id putOk rowOk st ch.chapter_number content hp]
          | true =>
            right
            exact ⟨content, rfl, hce, by
              rw [if_neg hce]
              exact upload_blob_self putOk rowOk st ch.chapter_number content hce hp⟩
  · exact Or.inl (processChapter_other fetch putOk rowOk st ch m hm).2

theorem foldl_process_other (fetch : Nat → Option String) (putOk rowOk : Nat → Bool) :
    ∀ (l : List Chapter) (st : Store) (m : Nat),
    (∀ ch ∈ l, m ≠ ch.chapter_number) →
    (l.foldl (processChapter fetch putOk rowOk) st).rows m = st.rows m
    ∧ (l.foldl (processChapter fetch putOk rowOk) st).blob m = st.blob m := by
  intro l
  induction l with
  | nil => intro st m _; exact ⟨rfl, rfl⟩
  | cons ch rest ih =>
    intro st m h
    have h1 := processChapter_other fetch putOk rowOk st ch m (h ch (List.mem_cons_self _ _))
    have h2 := ih (processChapter fetch putOk rowOk st ch) m
      (fun c hc => h c (List.mem_cons_of_mem _ hc))
    simp only [List.foldl_cons]
    exact ⟨h2.1.trans h1.1, h2.2.trans h1.2⟩

theorem foldl_process_archived_mono (fetch : Nat → Option String)
    (putOk rowOk : Nat → Bool) :
    ∀ (l : List Chapter) (st : Store) (n : Nat),
    is_chapter_archived st n = true →
    is_chapter_archived (l.foldl (processChapter fetch putOk rowOk) st) n = true := by
  intro l
  induction l with
  | nil => intro st n h; exact h
  | cons ch rest ih =>
    intro st n h
    exact ih _ n (processChapter_archived_mono fetch putOk rowOk st ch n h)

theorem foldl_process_blob_cases (fetch : Nat → Option String)
    (putOk rowOk : Nat → Bool) :
    ∀ (l : List Chapter) (st : Store) (m : Nat),
    (l.foldl (processChapter fetch putOk rowOk) st).blob m = st.blob m
    ∨ ∃ c, fetch m = some c ∧ c ≠ ""
        ∧ (l.foldl (processChapter fetch putOk rowOk) st).blob m = some c := by
  intro l
  induction l with
  | nil => intro st m; exact Or.inl rfl
  | cons ch rest ih =>
    intro st m
    rcases processChapter_blob_cases fetch putOk rowOk st ch m with h1 | ⟨c, hc1, hc2, h1⟩
    · rcases ih (processChapter fetch putOk rowOk st ch) m with h2 | ⟨c, hc1, hc2, h2⟩
      · exact Or.inl (by rw [List.foldl_cons, h2, h1])
      · exact Or.inr ⟨c, hc1, hc2, by rw [List.foldl_cons]; exact h2⟩
    · rcases ih (processChapter fetch putOk rowOk st ch) m with h2 | ⟨c2, hc21, hc22, h2⟩
      · exact Or.inr ⟨c, hc1, hc2, by rw [List.foldl_cons, h2]; exact h1⟩
      · exact Or.inr ⟨c2, hc21, hc22, by rw [List.foldl_cons]; exact h2⟩

theorem backfillLoop_take (flags : Nat → SchedFlags) (fetch : Nat → Option String)
    (putOk rowOk : Nat → Bool) (chs : List Chapter) :
    ∀ (start k : Nat) (st : Store),
    (∀ i, i < k → cancelSignal (flags (start + i)) = false) →
    (∀ i, k ≤ i → cancelSignal (flags (start + i)) = true) →
    backfillLoop flags fetch putOk rowOk start chs st
      = (chs.take k).foldl (processChapter fetch putOk rowOk) st := by
  induction chs with
  | nil => intro start k st _ _; simp [backfillLoop]
  | cons ch rest ih =>
    intro start k st hb ha
    cases k with
    | zero =>
      have hc : cancelSignal (flags start) = true := by
        simpa using ha 0 (Nat.le_refl 0)
      simp [backfillLoop, hc]
    | succ j =>
      have hc : cancelSignal (flags start) = false := by
        simpa using hb 0 (Nat.succ_pos j)
      simp only [backfillLoop, hc, Bool.false_eq_true, if_false,
        List.take_succ_cons, List.foldl_cons]
      exact ih (start + 1) j _
        (fun i hi => by
          have hx := hb (i + 1) (Nat.succ_lt_succ hi)
          rwa [show start + (i + 1) = start + 1 + i by omega] at hx)
        (fun i hi => by
          have hx := ha (i + 1) (Nat.succ_le_succ hi)
          rwa [show start + (i + 1) = start + 1 + i by omega] at hx)

/-- Claim C3: if the cancellation signal — raised by `stop_auto_crawl`,
the one code path serving both "stop requested" and "auto-discovery
disabled" (scheduler.py lines 54-63), which clears both flags the loop
check at line 249 reads — is raised between backfilling chapter `k` and
chapter `k+1`, the backfill loop exits before touching chapter `k+1`: it
computes exactly the fold over the first `k` chapters, chapters already
archived remain archived, the rows and blobs of the remaining chapters are
untouched, and every blob is either untouched or holds one complete
fetched chapter body (no partial write: flags are checked only between
chapters, `upload_chapter_content` is one atomic call). -/
theorem backfill_cancellation_clean (flags : Nat → SchedFlags)
    (fetch : Nat → Option String) (putOk rowOk : Nat → Bool)
    (chs : List Chapter) (st : Store) (k : Nat)
    (hnodup : (chs.map Chapter.chapter_number).Nodup)
    (hbefore : ∀ i, i < k → cancelSignal (flags i) = false)
    (hstop : ∀ i, k ≤ i → ∃ s : SchedState, flags i = (stop_auto_crawl s).schedFlags) :
    (∀ s : SchedState, cancelSignal (stop_auto_crawl s).schedFlags = true)
    ∧ backfillLoop flags fetch putOk rowOk 0 chs st
        = (chs.take k).foldl (processChapter fetch putOk rowOk) st
    ∧ (∀ n, is_chapter_archived st n = true →
        is_chapter_archived (backfillLoop flags fetch putOk rowOk 0 chs st) n = true)
    ∧ (∀ ch ∈ chs.drop k,
        (backfillLoop flags fetch putOk rowOk 0 chs st).rows ch.chapter_number
          = st.rows ch.chapter_number
        ∧ (backfillLoop flags fetch putOk rowOk 0 chs st).blob ch.chapter_number
          = st.blob ch.chapter_number)
    ∧ (∀ m, (backfillLoop flags fetch putOk rowOk 0 chs st).blob m = st.blob m
        ∨ ∃ c, fetch m = some c ∧ c ≠ ""
            ∧ (backfillLoop flags fetch putOk rowOk 0 chs st).blob m = some c) := by
  have hsig : ∀ s : SchedState, cancelSignal (stop_auto_crawl s).schedFlags = true :=
    fun s => rfl
  have hat : ∀ i, k ≤ i → cancelSignal (flags i) = true := by
    intro i hi
    obtain ⟨s, hs⟩ := hstop i hi
    rw [hs]
    exact hsig s
  have heq := backfillLoop_take flags fetch putOk rowOk chs 0 k st
    (fun i hi => by simpa using hbefore i hi)
    (fun i hi => by simpa using hat i hi)
  refine ⟨hsig, heq, ?_, ?_, ?_⟩
  · intro n hn
    rw [heq]
    exact foldl_process_archived_mono fetch putOk rowOk _ st n hn
  · intro ch hch
    rw [heq]
    have hsplit : (List.map Chapter.chapter_number (chs.take k)
        ++ List.map Chapter.chapter_number (chs.drop k)).Nodup := by
      rw [← List.map_append, List.take_append_drop]
      exact hnodup
    have hdisj := (List.nodup_append.1 hsplit).2.2
    refine foldl_process_other fetch putOk rowOk _ st ch.chapter_number ?_
    intro c hc he
    have h1 : c.chapter_number ∈ List.map Chapter.chapter_number (chs.take k) :=
      List.mem_map_of_mem Chapter.chapter_number hc
    have h2 : ch.chapter_number ∈ List.map Chapter.chapter_number (chs.drop k) :=
      List.mem_map_of_mem Chapter.chapter_number hch
    rw [← he] at h1
    exact hdisj h1 h2
  · intro m
    rw [heq]
    exact foldl_process_blob_cases fetch putOk rowOk _ st m

/-- Witness for C3: two chapters, the stop signal raised after chapter 1 —
the loop result is the fold over chapter 1 alone. -/
theorem backfill_cancellation_clean_witness :
    backfillLoop flagsW fetchW (fun _ => true) (fun _ => true) 0 chsW stW
      = (chsW.take 1).foldl (processChapter fetchW (fun _ => true) (fun _ => true)) stW :=
  (backfill_cancellation_clean flagsW fetchW (fun _ => true) (fun _ => true) chsW stW 1
    (by decide)
    (fun i hi => by
      have h0 : i = 0 := Nat.lt_one_iff.1 hi
      subst h0
      rfl)
    (fun i hi => by
      cases i with
      | zero => omega
      | succ j => exact ⟨sBusy, rfl⟩)).2.1

/-- Claim C4: a `manual_crawl` call made while a manual run is in flight
(`is_running` set) returns the busy status immediately with the scheduler
state — flags, stats, logs, progress — entirely unchanged (the busy check
at scheduler.py line 309 precedes every mutation, so the in-flight run is
unaffected); a call made while no run is in flight is accepted (its result
is never the busy status) and its entry mutations set the running flag. -/
theorem manual_crawl_busy_exclusion :
    ∀ (s : SchedState) (body : SchedState → BodyOutcome),
    (s.is_running = true →
      manual_crawl s body = (ManualResult.busy "Crawler đang chạy", s))
    ∧ (s.is_running = false →
      (manual_crawl_entry s).is_running = true
      ∧ ∀ msg, (manual_crawl s body).1 ≠ ManualResult.busy msg) := by
  intro s body
  constructor
  · intro h
    simp [manual_crawl, h]
  · intro h
    refine ⟨rfl, fun msg => ?_⟩
    simp only [manual_crawl, h, Bool.false_eq_true, if_false]
    cases body (manual_crawl_entry s) <;> simp

/-- Witness for C4: a busy scheduler rejects with its state unchanged; an
idle scheduler accepts, setting the running flag. -/
theorem manual_crawl_busy_exclusion_witness :
    manual_crawl sBusy bodyNormal = (ManualResult.busy "Crawler đang chạy", sBusy)
    ∧ (manual_crawl_entry sIdle).is_running = true
    ∧ (manual_crawl sIdle bodyNormal).1 ≠ ManualResult.busy "Crawler đang chạy" :=
  ⟨(manual_crawl_busy_exclusion sBusy bodyNormal).1 rfl,
   ((manual_crawl_busy_exclusion sIdle bodyNormal).2 rfl).1,
   ((manual_crawl_busy_exclusion sIdle bodyNormal).2 rfl).2 "Crawler đang chạy"⟩

/-- Claim C10: every accepted `manual_crawl` invocation — whether its body
completes normally or raises — returns with the running flag cleared and
the current-story field reset to the empty string, because the `finally`
clause at scheduler.py lines 356-358 runs on both paths; a failed run can
therefore never leave the scheduler permanently busy. -/
theorem manual_crawl_always_clears_running :
    ∀ (s : SchedState) (body : SchedState → BodyOutcome), s.is_running = false →
    (manual_crawl s body).2.is_running = false
    ∧ (manual_crawl s body).2.current_story = "" := by
  intro s body h
  simp only [manual_crawl, h, Bool.false_eq_true, if_false]
  cases body (manual_crawl_entry s) <;> simp [manual_finally]

/-- Witness for C10: an accepted run whose body raises after setting a
current story still returns not-running with the story field cleared. -/
theorem manual_crawl_always_clears_running_witness :
    (manual_crawl sIdle bodyRaise).2.is_running = false
    ∧ (manual_crawl sIdle bodyRaise).2.current_story = "" :=
  manual_crawl_always_clears_running sIdle bodyRaise rfl

/-! ## Lemmas about pagination -/

theorem total_pages_eq (p : Pager) :
    (get_pagination_info (some p)).total_pages =
      (if (if lastPageVal p = 1 then maxTrang p.trangHrefs else lastPageVal p) = 1
       then maxDigits (if lastPageVal p = 1 then maxTrang p.trangHrefs else lastPageVal p)
              p.itemTexts
       else if lastPageVal p = 1 then maxTrang p.trangHrefs else lastPageVal p) := rfl

/-- Claim C7 (amended): `get_pagination_info` tries the three total-page
signals in fixed order — last-page control, maximum `trang-N` link value,
maximum bare-digit control text — where each later signal is consulted only
while the running total is still exactly 1; the last-page control's value
is adopted whenever it differs from 1 (a parsed value of 0 is also adopted
and suppresses the remaining signals), each of the other two signals is
used when it is the first to exceed 1, and the function never returns 1
without all three having been checked; markup exposing only a last-page
link to page 7 yields 7, and markup with only bare-digit links 1, 2, 3
yields 3 (parsers.py lines 246-312). -/
theorem pagination_signal_order :
    (∀ p : Pager,
      (lastPageVal p ≠ 1 →
        (get_pagination_info (some p)).total_pages = lastPageVal p)
      ∧ (lastPageVal p = 1 → 1 < maxTrang p.trangHrefs →
        (get_pagination_info (some p)).total_pages = maxTrang p.trangHrefs)
      ∧ (lastPageVal p = 1 → maxTrang p.trangHrefs = 1 →
        (get_pagination_info (some p)).total_pages = maxDigits 1 p.itemTexts)
      ∧ ((get_pagination_info (some p)).total_pages = 1 →
        lastPageVal p = 1 ∧ maxTrang p.trangHrefs = 1 ∧ maxDigits 1 p.itemTexts = 1))
    ∧ (get_pagination_info (some pagerLast7)).total_pages = 7
    ∧ (get_pagination_info (some pagerDigits123)).total_pages = 3 := by
  refine ⟨fun p => ⟨?_, ?_, ?_, ?_⟩, by decide, by decide⟩
  · intro h1
    rw [total_pages_eq]
    simp [h1]
  · intro h1 h2
    rw [total_pages_eq]
    simp [h1, Nat.ne_of_gt h2]
  · intro h1 h2
    rw [total_pages_eq]
    simp [h1, h2]
  · intro hres
    rw [total_pages_eq] at hres
    by_cases h1 : lastPageVal p = 1
    · by_cases h2 : maxTrang p.trangHrefs = 1
      · simp [h1, h2] at hres
        exact ⟨h1, h2, hres⟩
      · simp [h1, h2] at hres
    · simp [h1] at hres

/-- Witness for C7 (amended): each signal adopted at a concrete pager, and
the all-miss case returning 1 only after all three signals yielded 1. -/
theorem pagination_signal_order_witness :
    (get_pagination_info (some pagerLast7)).total_pages = lastPageVal pagerLast7
    ∧ (get_pagination_info (some ⟨none, none, ["/t/trang-4/"], [], none, none⟩)).total_pages
        = maxTrang ["/t/trang-4/"]
    ∧ (get_pagination_info (some pagerDigits123)).total_pages = maxDigits 1 ["1", "2", "3"]
    ∧ lastPageVal ⟨none, none, [], [], none, none⟩ = 1 :=
  ⟨(pagination_signal_order.1 pagerLast7).1 (by decide),
   (pagination_signal_order.1 ⟨none, none, ["/t/trang-4/"], [], none, none⟩).2.1 rfl (by decide),
   (pagination_signal_order.1 pagerDigits123).2.2.1 rfl rfl,
   ((pagination_signal_order.1 ⟨none, none, [], [], none, none⟩).2.2.2 (by decide)).1⟩

/-- Counterexample to C7 as stated: on a pager whose last-page link reads
`trang-0` while a bare-digit control shows 3, the first signal yielding a
value greater than 1 is the bare-digit signal (3), yet the function returns
0 — the last-page value 0 is adopted and the remaining signals are never
consulted. -/
theorem pagination_signal_order_counterexample :
    lastPageVal pagerZero = 0
    ∧ ¬1 < lastPageVal pagerZero
    ∧ maxDigits 1 pagerZero.itemTexts = 3
    ∧ (get_pagination_info (some pagerZero)).total_pages = 0
    ∧ (get_pagination_info (some pagerZero)).total_pages ≠ 3 := by
  decide

/-- Claim C8: chapter-number extraction tries the localized "chapter N"
label in the title first and returns its value regardless of any number in
the URL; otherwise it returns the value of the `chuong-N` pattern in the
URL when one exists; otherwise it yields nothing and `parse_chapter_list`
assigns the sequential fallback index to the emitted record (parsers.py
lines 155-189). -/
theorem chapter_number_extraction_order :
    (∀ (title url : String),
      (∀ n, titleChapterNum title = some n → extract_chapter_number title url = some n)
      ∧ (titleChapterNum title = none → extract_chapter_number title url = chuongNum url))
    ∧ (∀ (lnk : Link) (rest : List Link) (i : Nat),
        linkPasses lnk = true → extract_chapter_number lnk.text lnk.href = none →
        parse_chapter_list (lnk :: rest) i
          = ⟨i, lnk.text, urljoin BASE_URL lnk.href⟩ :: parse_chapter_list rest (i + 1)) := by
  constructor
  · intro title url
    constructor
    · intro n h
      simp [extract_chapter_number, h]
    · intro h
      simp [extract_chapter_number, h]
  · intro lnk rest i hpass hex
    simp only [linkPasses, Bool.and_eq_true, Bool.not_eq_true'] at hpass
    obtain ⟨⟨h1, h2⟩, h3⟩ := hpass
    have hn3 : ¬lnk.text.length < 2 := of_decide_eq_false h3
    simp [parse_chapter_list, h1, h2, hn3, hex]

/-- Witness for C8: the title label wins over the URL number; a label-free
title falls back to the URL pattern; a link with neither gets the
sequential index. -/
theorem chapter_number_extraction_order_witness :
    extract_chapter_number "Chương 12: Mở đầu" "/x/chuong-5/" = some 12
    ∧ extract_chapter_number "Phần kết" "/x/chuong-5/" = chuongNum "/x/chuong-5/"
    ∧ parse_chapter_list [⟨"/truyen/chuong-khong-so/", "Phần kết của truyện"⟩] 4
        = [⟨4, "Phần kết của truyện", urljoin BASE_URL "/truyen/chuong-khong-so/"⟩] :=
  ⟨(chapter_number_extraction_order.1 "Chương 12: Mở đầu" "/x/chuong-5/").1 12 (by decide),
   (chapter_number_extraction_order.1 "Phần kết" "/x/chuong-5/").2 (by decide),
   by
     have h := chapter_number_extraction_order.2
       ⟨"/truyen/chuong-khong-so/", "Phần kết của truyện"⟩ [] 4 (by decide) (by decide)
     simpa [parse_chapter_list] using h⟩

/-! ## Lemmas about chapter-number positivity -/

theorem parse_chapter_list_pos :
    ∀ (links : List Link) (i : Nat), 1 ≤ i →
    ∀ c ∈ parse_chapter_list links i, 1 ≤ c.chapter_number := by
  intro links
  induction links with
  | nil =>
    intro i hi c hc
    simp [parse_chapter_list] at hc
  | cons lnk rest ih =>
    intro i hi c hc
    rw [parse_chapter_list] at hc
    split at hc
    · exact ih i hi c hc
    · split at hc
      · exact ih i hi c hc
      · split at hc
        · exact ih i hi c hc
        · rcases List.mem_cons.1 hc with rfl | hc2
          · cases hx : extract_chapter_number lnk.text lnk.href with
            | none => simpa [hx] using hi
            | some m =>
              by_cases hm : m = 0
              · simpa [hx, hm] using hi
              · simpa [hx, hm] using Nat.one_le_iff_ne_zero.2 hm
          · exact ih (i + 1) (Nat.le_succ_of_le hi) c hc2

/-- Claim C9: every chapter record produced by chapter-list enumeration —
parsed from any markup on any number of pages, deduplicated, sorted and
turned into persistence records — carries a `chapter_number` of at least 1:
extracted numbers are used only when non-zero, and the sequential fallback
index starts at 1 (parsers.py lines 128-174, scheduler.py lines 199-209). -/
theorem enumeration_chapter_numbers_positive :
    ∀ (pages : List (List Link)) (sid : Nat) (r : ChapterRecord),
    r ∈ buildRecords sid
        (dedupSortChapters ((pages.map fun ls => parse_chapter_list ls 1).flatten)) →
    1 ≤ r.chapter_number := by
  intro pages sid r hr
  obtain ⟨ch, hch, rfl⟩ := List.mem_map.1 hr
  have hch2 : ch ∈ (pages.map fun ls => parse_chapter_list ls 1).flatten :=
    mem_dedupSort hch
  obtain ⟨l, hl, hchl⟩ := List.mem_flatten.1 hch2
  obtain ⟨ls, _, rfl⟩ := List.mem_map.1 hl
  exact parse_chapter_list_pos ls 1 (Nat.le_refl 1) ch hchl

/-- Witness for C9: the record built from a one-link page has chapter
number 1. -/
theorem enumeration_chapter_numbers_positive_witness :
    1 ≤ (ChapterRecord.chapter_number
        ⟨7, 1, "Chương 1", "https://truyenfull.vision/chuong-1/", ""⟩) :=
  enumeration_chapter_numbers_positive [[⟨"/chuong-1/", "Chương 1"⟩]] 7
    ⟨7, 1, "Chương 1", "https://truyenfull.vision/chuong-1/", ""⟩ (by decide)

end Crawl
